import Mathlib

/-!
Shallow embedding of the java_type_checker expression checker
(src/java-type-checker/java_type_checker/expressions.py) together with the
type model it imports from java_type_checker.types.  The expression layer is
translated statement by statement from expressions.py; the type model
(JavaType, subtyping, method lookup), whose source file is not part of the
provided sources, is modelled from the specification (spec sections 3 and 4.1).

Python exceptions are modelled with `Except`: a method that "raises" returns
`.error`, and exceptions propagate through `do`-sequencing exactly as they
propagate up the Python call chain.
-/

/-- Errors that can be raised while checking.  The first four constructors are
the `JavaTypeError` taxonomy of expressions.py / types.py; `NotImplementedError`
and `IndexError` are the Python built-in exceptions reachable from this code
(the unimplemented base-class methods, and tuple indexing out of range). -/
inductive JavaError : Type where
  | JavaTypeMismatchError (message : String)
  | JavaArgumentCountError (message : String)
  | NoSuchJavaMethod (message : String)
  | JavaIllegalInstantiationError (message : String)
  | NotImplementedError (message : String)
  | IndexError (message : String)
  deriving Repr, DecidableEq

/-- True for the errors that belong to the `JavaTypeError` taxonomy (the
diagnostics of the checker), false for the Python built-in exceptions. -/
def JavaError.isJavaTypeError : JavaError → Bool
  | .JavaTypeMismatchError _ => true
  | .JavaArgumentCountError _ => true
  | .NoSuchJavaMethod _ => true
  | .JavaIllegalInstantiationError _ => true
  | .NotImplementedError _ => false
  | .IndexError _ => false

mutual
/-- Modelled from the spec (section 3, "Type"): a named entity in the type
universe, carrying its name (a unique identifier string), whether it is a
reference type (as opposed to a primitive value type), whether it is the
distinguished bottom-like NULL type, its declared direct supertypes, and the
method signatures it declares.  Types are immutable values. -/
inductive JavaType : Type where
  | mk (name : String) (is_reference : Bool) (is_null : Bool)
       (direct_supertypes : List JavaType) (methods : List JavaMethod)

/-- Modelled from the spec (section 3, "MethodSignature"): method name, ordered
sequence of declared parameter types, return type. -/
inductive JavaMethod : Type where
  | mk (name : String) (parameter_types : List JavaType) (return_type : JavaType)
end

def JavaType.name : JavaType → String
  | .mk n _ _ _ _ => n

def JavaType.is_reference : JavaType → Bool
  | .mk _ r _ _ _ => r

def JavaType.is_null : JavaType → Bool
  | .mk _ _ nl _ _ => nl

def JavaType.direct_supertypes : JavaType → List JavaType
  | .mk _ _ _ s _ => s

def JavaType.methods : JavaType → List JavaMethod
  | .mk _ _ _ _ m => m

def JavaMethod.name : JavaMethod → String
  | .mk n _ _ => n

def JavaMethod.parameter_types : JavaMethod → List JavaType
  | .mk _ p _ => p

def JavaMethod.return_type : JavaMethod → JavaType
  | .mk _ _ r => r

mutual
/-- Modelled from the spec (section 4.1): `is_subtype_of(self, other)` is true
iff `self` equals `other` (types are identified by their unique name) or `self`
derives from `other` through the declared hierarchy; reflexivity always holds.
The NULL type is a subtype of every reference type but not of primitive value
types.  The operation is total and raises nothing. -/
def JavaType.is_subtype_of : JavaType → JavaType → Bool
  | .mk n _ nl sups _, other =>
    n == other.name ||
      (if nl then other.is_reference
       else anySubtype sups other)

/-- Helper for `is_subtype_of`: whether any type of the list derives the other
type (the `any(...)` over the declared direct supertypes). -/
def anySubtype : List JavaType → JavaType → Bool
  | [], _ => false
  | t :: ts, other => t.is_subtype_of other || anySubtype ts other
end

/-- Modelled from the spec (section 4.1): `get_method(self, name)` returns the
signature if the receiving type declares a method with that name; otherwise it
fails with a `NoSuchMethod` condition identifying the type and the method name.
(The spec leaves inheritance of methods through the hierarchy optional — "if
inheritance of methods is modeled" — and it is not modelled here.)  Exactly one
signature per name is assumed, so the first match is the match. -/
def JavaType.get_method (self : JavaType) (name : String) : Except JavaError JavaMethod :=
  match self.methods.find? (fun m => m.name == name) with
  | some m => .ok m
  | none => .error (.NoSuchJavaMethod (self.name ++ " has no method named " ++ name))

/-- Modelled from the spec (section 3): the distinguished bottom-like NULL
type, assignable to every reference type. -/
def JavaBuiltInTypes.NULL : JavaType := .mk "null" true true [] []

/-- A variable node: `JavaVariable(name, declared_type)` from expressions.py.
Assignment left-hand sides are variables (spec section 3: "lhs must be a
Variable, not an arbitrary expression"), so the variable payload is a separate
structure that JavaAssignment can reuse for its lhs. -/
structure JavaVariable : Type where
  name : String
  declared_type : JavaType

/-- The expression AST of expressions.py: one constructor per concrete
subclass of JavaExpression. -/
inductive JavaExpression : Type where
  | JavaVariable (v : JavaVariable)
  | JavaLiteral (value : String) (type : JavaType)
  | JavaAssignment (lhs : JavaVariable) (rhs : JavaExpression)
  | JavaMethodCall (receiver : JavaExpression) (method_name : String)
      (args : List JavaExpression)
  | JavaConstructorCall (instantiated_type : JavaType) (args : List JavaExpression)

/-- `JavaNullLiteral()` from expressions.py: a literal of value "null" and type
`JavaBuiltInTypes.NULL`. -/
def JavaNullLiteral : JavaExpression := .JavaLiteral "null" JavaBuiltInTypes.NULL

/-- `static_type()` of each expression class of expressions.py:
variables return their declared type, literals their fixed type, assignments
`self.lhs.static_type()` (the variable's declared type), method calls look up
`method_name` on the receiver's static type and return the signature's return
type (propagating lookup failure), constructor calls return the instantiated
type. -/
def static_type : JavaExpression → Except JavaError JavaType
  | .JavaVariable v => .ok v.declared_type
  | .JavaLiteral _ type => .ok type
  | .JavaAssignment lhs _ => .ok lhs.declared_type
  | .JavaMethodCall receiver method_name _ => do
    let receiver_type ← static_type receiver
    let method ← receiver_type.get_method method_name
    .ok method.return_type
  | .JavaConstructorCall instantiated_type _ => .ok instantiated_type

/-- Message of the JavaTypeMismatchError raised by JavaAssignment.check_types:
"Cannot assign {rhs} to variable {name} of type {lhs}". -/
def assignMessage (rhs_type_name variable_name lhs_type_name : String) : String :=
  "Cannot assign " ++ rhs_type_name ++ " to variable " ++ variable_name ++
    " of type " ++ lhs_type_name

/-- Message of the JavaArgumentCountError raised by JavaMethodCall.check_types:
"Wrong number of arguments for {type}.{method}(): expected {n}, got {m}". -/
def arityMessage (receiver_type_name method_name : String) (expected actual : Nat) : String :=
  "Wrong number of arguments for " ++ receiver_type_name ++ "." ++ method_name ++
    "(): expected " ++ toString expected ++ ", got " ++ toString actual

/-- Message of the JavaTypeMismatchError raised by JavaMethodCall.check_types:
"{type}.{method}() expects arguments of type ({expected}), but got ({actual})",
where the two lists are comma-joined. -/
def mismatchMessage (receiver_type_name method_name : String)
    (expected_type_names actual_type_names : List String) : String :=
  receiver_type_name ++ "." ++ method_name ++ "() expects arguments of type (" ++
    String.intercalate ", " expected_type_names ++ "), but got (" ++
    String.intercalate ", " actual_type_names ++ ")"

mutual
/-- `check_types()` of each expression class of expressions.py.  Variables and
literals pass.  Assignment checks lhs (a variable: no-op) then rhs, then
requires the rhs type to be a subtype of the lhs type.  Method calls check the
receiver, look up the method on the receiver's static type, compare arity, then
run the argument loop.  JavaConstructorCall does not override check_types, so
the base class JavaExpression.check_types raises NotImplementedError. -/
def check_types : JavaExpression → Except JavaError Unit
  | .JavaVariable _ => .ok ()
  | .JavaLiteral _ _ => .ok ()
  | .JavaAssignment lhs rhs => do
    check_types rhs
    let lhs_type := lhs.declared_type
    let rhs_type ← static_type rhs
    if rhs_type.is_subtype_of lhs_type then .ok ()
    else .error (.JavaTypeMismatchError (assignMessage rhs_type.name lhs.name lhs_type.name))
  | .JavaMethodCall receiver method_name args => do
    check_types receiver
    let receiver_type ← static_type receiver
    let method ← receiver_type.get_method method_name
    let expected_types := method.parameter_types
    if expected_types.length != args.length then
      .error (.JavaArgumentCountError
        (arityMessage receiver_type.name method_name expected_types.length args.length))
    else
      check_args receiver_type.name method_name [] [] expected_types args
  | .JavaConstructorCall _ _ =>
    .error (.NotImplementedError "JavaConstructorCall must override check_types()")

/-- The `for i in range(len(expected_types))` loop of
JavaMethodCall.check_types, carrying the two accumulated name lists.  Each
round checks the argument, takes its static type, appends both names, and
raises a JavaTypeMismatchError built from the names accumulated so far if the
argument type is not a subtype of the parameter type.  The loop is bounded by
`expected_types`; indexing `self.args[i]` past the end of `args` would be a
Python IndexError (unreachable from check_types, which has compared the
lengths). -/
def check_args (receiver_type_name method_name : String)
    (expected_type_names actual_type_names : List String) :
    List JavaType → List JavaExpression → Except JavaError Unit
  | [], _ => .ok ()
  | _ :: _, [] => .error (.IndexError "tuple index out of range")
  | expected_type :: ets, arg :: rest => do
    check_types arg
    let actual_type ← static_type arg
    let expected_names := expected_type_names ++ [expected_type.name]
    let actual_names := actual_type_names ++ [actual_type.name]
    if actual_type.is_subtype_of expected_type then
      check_args receiver_type_name method_name expected_names actual_names ets rest
    else
      .error (.JavaTypeMismatchError
        (mismatchMessage receiver_type_name method_name expected_names actual_names))
end

/-- State-threading translation of `static_type()`: the method returns its
result together with the expression node as it stands after the call.  Every
method call on a child is translated as also returning the updated child, and
the parent node is rebuilt from the updated children, so that the absence of
tree mutation in the source is a provable statement about this definition
rather than an artifact of a pure embedding. -/
def static_type_frame : JavaExpression → Except JavaError JavaType × JavaExpression
  | .JavaVariable v => (.ok v.declared_type, .JavaVariable v)
  | .JavaLiteral value type => (.ok type, .JavaLiteral value type)
  | .JavaAssignment lhs rhs => (.ok lhs.declared_type, .JavaAssignment lhs rhs)
  | .JavaMethodCall receiver method_name args =>
    match static_type_frame receiver with
    | (.error e, receiver1) => (.error e, .JavaMethodCall receiver1 method_name args)
    | (.ok receiver_type, receiver1) =>
      match receiver_type.get_method method_name with
      | .error e => (.error e, .JavaMethodCall receiver1 method_name args)
      | .ok method => (.ok method.return_type, .JavaMethodCall receiver1 method_name args)
  | .JavaConstructorCall instantiated_type args =>
    (.ok instantiated_type, .JavaConstructorCall instantiated_type args)

mutual
/-- State-threading translation of `check_types()`, in the style of
`static_type_frame`: the result is paired with the expression tree as it
stands when the method returns or raises. -/
def check_types_frame : JavaExpression → Except JavaError Unit × JavaExpression
  | .JavaVariable v => (.ok (), .JavaVariable v)
  | .JavaLiteral value type => (.ok (), .JavaLiteral value type)
  | .JavaAssignment lhs rhs =>
    match check_types_frame rhs with
    | (.error e, rhs1) => (.error e, .JavaAssignment lhs rhs1)
    | (.ok _, rhs1) =>
      match static_type_frame rhs1 with
      | (.error e, rhs2) => (.error e, .JavaAssignment lhs rhs2)
      | (.ok rhs_type, rhs2) =>
        if rhs_type.is_subtype_of lhs.declared_type then
          (.ok (), .JavaAssignment lhs rhs2)
        else
          (.error (.JavaTypeMismatchError
              (assignMessage rhs_type.name lhs.name lhs.declared_type.name)),
            .JavaAssignment lhs rhs2)
  | .JavaMethodCall receiver method_name args =>
    match check_types_frame receiver with
    | (.error e, receiver1) => (.error e, .JavaMethodCall receiver1 method_name args)
    | (.ok _, receiver1) =>
      match static_type_frame receiver1 with
      | (.error e, receiver2) => (.error e, .JavaMethodCall receiver2 method_name args)
      | (.ok receiver_type, receiver2) =>
        match receiver_type.get_method method_name with
        | .error e => (.error e, .JavaMethodCall receiver2 method_name args)
        | .ok method =>
          if method.parameter_types.length != args.length then
            (.error (.JavaArgumentCountError (arityMessage receiver_type.name method_name
                method.parameter_types.length args.length)),
              .JavaMethodCall receiver2 method_name args)
          else
            match check_args_frame receiver_type.name method_name [] []
                method.parameter_types args with
            | (r, args1) => (r, .JavaMethodCall receiver2 method_name args1)
  | .JavaConstructorCall instantiated_type args =>
    (.error (.NotImplementedError "JavaConstructorCall must override check_types()"),
      .JavaConstructorCall instantiated_type args)

/-- State-threading translation of the argument loop of
JavaMethodCall.check_types, in the style of `static_type_frame`: the result is
paired with the argument list as it stands when the loop returns or raises. -/
def check_args_frame (receiver_type_name method_name : String)
    (expected_type_names actual_type_names : List String) :
    List JavaType → List JavaExpression → Except JavaError Unit × List JavaExpression
  | [], args => (.ok (), args)
  | _ :: _, [] => (.error (.IndexError "tuple index out of range"), [])
  | expected_type :: ets, arg :: rest =>
    match check_types_frame arg with
    | (.error e, arg1) => (.error e, arg1 :: rest)
    | (.ok _, arg1) =>
      match static_type_frame arg1 with
      | (.error e, arg2) => (.error e, arg2 :: rest)
      | (.ok actual_type, arg2) =>
        let expected_names := expected_type_names ++ [expected_type.name]
        let actual_names := actual_type_names ++ [actual_type.name]
        if actual_type.is_subtype_of expected_type then
          match check_args_frame receiver_type_name method_name expected_names
              actual_names ets rest with
          | (r, rest1) => (r, arg2 :: rest1)
        else
          (.error (.JavaTypeMismatchError
              (mismatchMessage receiver_type_name method_name expected_names actual_names)),
            arg2 :: rest)
end

/-- The state-threading `static_type` agrees with the pure one and returns the
tree unchanged: `static_type()` mutates nothing. -/
theorem static_type_frame_eq (e : JavaExpression) :
    static_type_frame e = (static_type e, e) := by
  induction e using static_type_frame.induct with
  | case1 v => rfl
  | case2 value type => rfl
  | case3 lhs rhs => rfl
  | case4 receiver method_name args er receiver1 h ih =>
      rw [ih] at h
      simp only [Prod.mk.injEq] at h
      obtain ⟨h1, h2⟩ := h
      subst h2
      simp [static_type_frame, static_type, ih, h1, bind, Except.bind]
  | case5 receiver method_name args receiver_type receiver1 h er hg ih =>
      rw [ih] at h
      simp only [Prod.mk.injEq] at h
      obtain ⟨h1, h2⟩ := h
      subst h2
      simp [static_type_frame, static_type, ih, h1, hg, bind, Except.bind]
  | case6 receiver method_name args receiver_type receiver1 h meth hg ih =>
      rw [ih] at h
      simp only [Prod.mk.injEq] at h
      obtain ⟨h1, h2⟩ := h
      subst h2
      simp [static_type_frame, static_type, ih, h1, hg, bind, Except.bind]
  | case7 instantiated_type args => rfl

/-- The state-threading `check_types` agrees with the pure one and returns the
tree unchanged: `check_types()` mutates nothing. -/
theorem check_types_frame_eq : ∀ e : JavaExpression, check_types_frame e = (check_types e, e) := by
  apply check_types_frame.induct
    (fun e => check_types_frame e = (check_types e, e))
    (fun rn mn ean aan ets args =>
      check_args_frame rn mn ean aan ets args = (check_args rn mn ean aan ets args, args))
  · intro v; rfl
  · intro value type; rfl
  · intro lhs rhs e rhs1 h ih
    rw [ih] at h
    simp only [Prod.mk.injEq] at h
    obtain ⟨h1, h2⟩ := h
    subst h2
    simp [check_types_frame, check_types, ih, h1, bind, Except.bind]
  · intro lhs rhs a rhs1 h e receiver1 hst ih
    rw [ih] at h
    simp only [Prod.mk.injEq] at h
    obtain ⟨h1, h2⟩ := h
    subst h2
    rw [static_type_frame_eq rhs] at hst
    simp only [Prod.mk.injEq] at hst
    obtain ⟨h3, h4⟩ := hst
    subst h4
    simp [check_types_frame, check_types, ih, h1, h3, static_type_frame_eq, bind, Except.bind]
  · intro lhs rhs a rhs1 h rt receiver1 hst hsub ih
    rw [ih] at h
    simp only [Prod.mk.injEq] at h
    obtain ⟨h1, h2⟩ := h
    subst h2
    rw [static_type_frame_eq rhs] at hst
    simp only [Prod.mk.injEq] at hst
    obtain ⟨h3, h4⟩ := hst
    subst h4
    simp [check_types_frame, check_types, ih, h1, h3, hsub, static_type_frame_eq, bind, Except.bind]
  · intro lhs rhs a rhs1 h rt receiver1 hst hsub ih
    rw [ih] at h
    simp only [Prod.mk.injEq] at h
    obtain ⟨h1, h2⟩ := h
    subst h2
    rw [static_type_frame_eq rhs] at hst
    simp only [Prod.mk.injEq] at hst
    obtain ⟨h3, h4⟩ := hst
    subst h4
    simp [check_types_frame, check_types, ih, h1, h3, hsub, static_type_frame_eq, bind, Except.bind]
  · intro receiver method_name args e rhs1 h ih
    rw [ih] at h
    simp only [Prod.mk.injEq] at h
    obtain ⟨h1, h2⟩ := h
    subst h2
    simp [check_types_frame, check_types, ih, h1, bind, Except.bind]
  · intro receiver method_name args a rhs1 h e receiver1 hst ih
    rw [ih] at h
    simp only [Prod.mk.injEq] at h
    obtain ⟨h1, h2⟩ := h
    subst h2
    rw [static_type_frame_eq receiver] at hst
    simp only [Prod.mk.injEq] at hst
    obtain ⟨h3, h4⟩ := hst
    subst h4
    simp [check_types_frame, check_types, ih, h1, h3, static_type_frame_eq, bind, Except.bind]
  · intro receiver method_name args a rhs1 h rt receiver1 hst e hg ih
    rw [ih] at h
    simp only [Prod.mk.injEq] at h
    obtain ⟨h1, h2⟩ := h
    subst h2
    rw [static_type_frame_eq receiver] at hst
    simp only [Prod.mk.injEq] at hst
    obtain ⟨h3, h4⟩ := hst
    subst h4
    simp [check_types_frame, check_types, ih, h1, h3, hg, static_type_frame_eq, bind, Except.bind]
  · intro receiver method_name args a rhs1 h rt receiver1 hst meth hg harity ih
    rw [ih] at h
    simp only [Prod.mk.injEq] at h
    obtain ⟨h1, h2⟩ := h
    subst h2
    rw [static_type_frame_eq receiver] at hst
    simp only [Prod.mk.injEq] at hst
    obtain ⟨h3, h4⟩ := hst
    subst h4
    simp [check_types_frame, check_types, ih, h1, h3, hg, harity, static_type_frame_eq, bind,
      Except.bind]
  · intro receiver method_name args a rhs1 h rt receiver1 hst meth hg harity r args1 hca ih1 ih2
    rw [ih1] at h
    simp only [Prod.mk.injEq] at h
    obtain ⟨h1, h2⟩ := h
    subst h2
    rw [static_type_frame_eq receiver] at hst
    simp only [Prod.mk.injEq] at hst
    obtain ⟨h3, h4⟩ := hst
    subst h4
    rw [ih2] at hca
    simp only [Prod.mk.injEq] at hca
    obtain ⟨h5, h6⟩ := hca
    subst h5
    subst h6
    simp [check_types_frame, check_types, ih1, ih2, h1, h3, hg, harity, static_type_frame_eq,
      bind, Except.bind]
  · intro instantiated_type args; rfl
  · intro t rn mn ean aan
    simp [check_args_frame, check_args]
  · intro rn mn ean aan head tail; rfl
  · intro rn mn ean aan et ets arg rest e rhs1 h ih
    rw [ih] at h
    simp only [Prod.mk.injEq] at h
    obtain ⟨h1, h2⟩ := h
    subst h2
    simp [check_args_frame, check_args, ih, h1, bind, Except.bind]
  · intro rn mn ean aan et ets arg rest a rhs1 h e receiver1 hst ih
    rw [ih] at h
    simp only [Prod.mk.injEq] at h
    obtain ⟨h1, h2⟩ := h
    subst h2
    rw [static_type_frame_eq arg] at hst
    simp only [Prod.mk.injEq] at hst
    obtain ⟨h3, h4⟩ := hst
    subst h4
    simp [check_args_frame, check_args, ih, h1, h3, static_type_frame_eq, bind, Except.bind]
  · intro rn mn ean aan et ets arg rest a rhs1 h rt receiver1 hst expected_names actual_names
      hsub r args1 hca ih1 ih2
    rw [ih1] at h
    simp only [Prod.mk.injEq] at h
    obtain ⟨h1, h2⟩ := h
    subst h2
    rw [static_type_frame_eq arg] at hst
    simp only [Prod.mk.injEq] at hst
    obtain ⟨h3, h4⟩ := hst
    subst h4
    rw [ih2] at hca
    simp only [Prod.mk.injEq] at hca
    obtain ⟨h5, h6⟩ := hca
    subst h5
    subst h6
    simp [check_args_frame, check_args, ih1, ih2, h1, h3, hsub, static_type_frame_eq, bind,
      Except.bind]
  · intro rn mn ean aan et ets arg rest a rhs1 h rt receiver1 hst hsub ih
    rw [ih] at h
    simp only [Prod.mk.injEq] at h
    obtain ⟨h1, h2⟩ := h
    subst h2
    rw [static_type_frame_eq arg] at hst
    simp only [Prod.mk.injEq] at hst
    obtain ⟨h3, h4⟩ := hst
    subst h4
    simp [check_args_frame, check_args, ih, h1, h3, hsub, static_type_frame_eq, bind, Except.bind]

/-- Test fixture: a primitive int type. -/
def intType : JavaType := .mk "int" false false [] []

/-- Test fixture: a primitive boolean type. -/
def booleanType : JavaType := .mk "boolean" false false [] []

/-- Test fixture: a root reference type Object. -/
def objectType : JavaType := .mk "Object" true false [] []

/-- Test fixture: a method bar(int, int) -> Object. -/
def barMethod : JavaMethod := .mk "bar" [intType, intType] objectType

/-- Test fixture: a method baz(int) -> Object. -/
def bazMethod : JavaMethod := .mk "baz" [intType] objectType

/-- Test fixture: a reference type Foo deriving Object, with methods bar and
baz. -/
def fooType : JavaType := .mk "Foo" true false [objectType] [barMethod, bazMethod]

/-- A run of arguments that the check_types loop of JavaMethodCall walks
through without raising: each argument passes its own check and its static
type is a subtype of the corresponding parameter type.  `ens` and `ans` are
the parameter-type names and argument-type names the loop accumulates over
that run. -/
inductive ArgsOk : List JavaType → List JavaExpression → List String → List String → Prop
  | nil : ArgsOk [] [] [] []
  | cons {et t : JavaType} {a : JavaExpression}
      {ets : List JavaType} {rest : List JavaExpression} {ens ans : List String} :
      check_types a = .ok () → static_type a = .ok t → t.is_subtype_of et = true →
      ArgsOk ets rest ens ans →
      ArgsOk (et :: ets) (a :: rest) (et.name :: ens) (t.name :: ans)

theorem ArgsOk.length_eq {pets : List JavaType} {args : List JavaExpression}
    {ens ans : List String} (h : ArgsOk pets args ens ans) :
    pets.length = args.length := by
  induction h with
  | nil => rfl
  | cons _ _ _ _ ih => simpa using ih

/-- The argument loop walks through an accepting run and continues on the
remaining lists with the names accumulated. -/
theorem check_args_append (rn mn : String)
    {petsPre : List JavaType} {argsPre : List JavaExpression} {ens ans : List String}
    (h : ArgsOk petsPre argsPre ens ans) (ean aan : List String)
    (ets : List JavaType) (args : List JavaExpression) :
    check_args rn mn ean aan (petsPre ++ ets) (argsPre ++ args) =
      check_args rn mn (ean ++ ens) (aan ++ ans) ets args := by
  induction h generalizing ean aan with
  | nil => simp
  | cons hc hs hsub _ ih =>
      simp only [List.cons_append, check_args, hc, hs, hsub, if_true, bind, Except.bind,
        List.append_eq]
      rw [ih]
      simp

/-- The argument loop raises the JavaTypeMismatchError built from the names
accumulated so far (including the offending position) as soon as an argument
that passes its own check has a static type that is not a subtype of its
parameter type. -/
theorem check_args_mismatch (rn mn : String) (ean aan : List String)
    {et t : JavaType} {a : JavaExpression} (ets : List JavaType) (rest : List JavaExpression)
    (hc : check_types a = .ok ()) (hs : static_type a = .ok t)
    (hsub : t.is_subtype_of et = false) :
    check_args rn mn ean aan (et :: ets) (a :: rest) =
      .error (.JavaTypeMismatchError
        (mismatchMessage rn mn (ean ++ [et.name]) (aan ++ [t.name]))) := by
  simp [check_args, hc, hs, hsub, bind, Except.bind]

/-- The argument loop propagates an error raised inside an argument's own
recursive check before anything else about that argument is examined. -/
theorem check_args_error (rn mn : String) (ean aan : List String) {err : JavaError}
    {a : JavaExpression} (et : JavaType) (ets : List JavaType) (rest : List JavaExpression)
    (hc : check_types a = .error err) :
    check_args rn mn ean aan (et :: ets) (a :: rest) = .error err := by
  simp [check_args, hc, bind, Except.bind]

/-- JavaMethodCall.check_types reduces to the argument loop once the receiver
checks, the method resolves and the arity matches. -/
theorem check_types_method_call {receiver : JavaExpression} {rt : JavaType} {meth : JavaMethod}
    (method_name : String) (args : List JavaExpression)
    (hrecv : check_types receiver = .ok ())
    (hst : static_type receiver = .ok rt)
    (hg : rt.get_method method_name = .ok meth)
    (hlen : meth.parameter_types.length = args.length) :
    check_types (.JavaMethodCall receiver method_name args) =
      check_args rt.name method_name [] [] meth.parameter_types args := by
  simp [check_types, hrecv, hst, hg, hlen, bind, Except.bind]

/-- C1 counterexample: a ConstructorCall whose check_types() does not complete
successfully — it raises the base class's NotImplementedError (JavaConstructorCall
overrides static_type but not check_types), refuting "the call completes
successfully regardless of the argument expressions' types". -/
theorem constructor_call_completes_counterexample :
    check_types (.JavaConstructorCall fooType [.JavaLiteral "1" intType]) ≠ .ok () :=
  fun h => Except.noConfusion h

/-- C1 (amended): for every ConstructorCall node, check_types() performs no
validation of its arguments against the instantiated type and signals no type
diagnostic, but it does not complete successfully: JavaConstructorCall does not
override check_types, so the base class raises NotImplementedError (which is
not a JavaTypeError) regardless of the argument expressions' types. -/
theorem constructor_call_check_types_raises (instantiated_type : JavaType)
    (args : List JavaExpression) :
    check_types (.JavaConstructorCall instantiated_type args) =
        .error (.NotImplementedError "JavaConstructorCall must override check_types()") ∧
      JavaError.isJavaTypeError
        (.NotImplementedError "JavaConstructorCall must override check_types()") = false :=
  ⟨rfl, rfl⟩

/-- C2 counterexample: Foo.bar expects (int, int); calling it with (boolean,
int) mismatches at position 0 and the raised message lists only the length-1
prefixes "(int)" and "(boolean)", not the full sequences "(int, int)" and
"(boolean, int)" that the claim promises. -/
theorem method_call_mismatch_message_counterexample :
    check_types (.JavaMethodCall (.JavaVariable ⟨"foo", fooType⟩) "bar"
        [.JavaLiteral "true" booleanType, .JavaLiteral "2" intType]) =
        .error (.JavaTypeMismatchError (mismatchMessage "Foo" "bar" ["int"] ["boolean"])) ∧
      barMethod.parameter_types.map JavaType.name = ["int", "int"] ∧
      mismatchMessage "Foo" "bar" ["int"] ["boolean"] ≠
        mismatchMessage "Foo" "bar" ["int", "int"] ["boolean", "int"] :=
  ⟨rfl, rfl, by decide⟩

/-- C2 (amended): for every MethodCall with matching arity whose first
positional mismatch is at position k, check_types() signals a TypeMismatch
diagnostic whose message lists the expected parameter types and the actual
argument types accumulated up to and including position k — the length-(k+1)
prefixes of the two sequences (equal to the full sequences only when k is the
last position), not only the pair at position k. -/
theorem method_call_first_mismatch_reports_accumulated
    (receiver : JavaExpression) (method_name : String)
    (rt : JavaType) (meth : JavaMethod)
    (petsPre : List JavaType) (pet : JavaType) (petsTail : List JavaType)
    (argsPre : List JavaExpression) (badArg : JavaExpression) (argsTail : List JavaExpression)
    (ens ans : List String) (t : JavaType)
    (hrecv : check_types receiver = .ok ())
    (hst : static_type receiver = .ok rt)
    (hg : rt.get_method method_name = .ok meth)
    (hp : meth.parameter_types = petsPre ++ pet :: petsTail)
    (hpre : ArgsOk petsPre argsPre ens ans)
    (hlenT : argsTail.length = petsTail.length)
    (hbad : check_types badArg = .ok ())
    (ht : static_type badArg = .ok t)
    (hsub : t.is_subtype_of pet = false) :
    check_types (.JavaMethodCall receiver method_name (argsPre ++ badArg :: argsTail)) =
      .error (.JavaTypeMismatchError
        (mismatchMessage rt.name method_name (ens ++ [pet.name]) (ans ++ [t.name]))) := by
  have hlen : meth.parameter_types.length = (argsPre ++ badArg :: argsTail).length := by
    have h1 := hpre.length_eq
    simp only [hp, List.length_append, List.length_cons]
    omega
  rw [check_types_method_call method_name _ hrecv hst hg hlen, hp,
    check_args_append rt.name method_name hpre [] [] (pet :: petsTail) (badArg :: argsTail)]
  simp only [List.nil_append]
  exact check_args_mismatch rt.name method_name ens ans petsTail argsTail hbad ht hsub

/-- C3: for every MethodCall whose argument count differs from the resolved
signature's parameter count, check_types() signals an ArgumentCount diagnostic
carrying the expected and actual counts — for every argument list of that
length, so before any individual argument is validated: even when every
argument is well typed, and even when an argument subtree contains its own
type error. -/
theorem method_call_arity_before_arguments
    (receiver : JavaExpression) (method_name : String) (args : List JavaExpression)
    (rt : JavaType) (meth : JavaMethod)
    (hrecv : check_types receiver = .ok ())
    (hst : static_type receiver = .ok rt)
    (hg : rt.get_method method_name = .ok meth)
    (hlen : meth.parameter_types.length ≠ args.length) :
    check_types (.JavaMethodCall receiver method_name args) =
      .error (.JavaArgumentCountError
        (arityMessage rt.name method_name meth.parameter_types.length args.length)) := by
  have hb : (meth.parameter_types.length != args.length) = true := by
    simpa [bne_iff_ne] using hlen
  simp [check_types, hrecv, hst, hg, hb, bind, Except.bind]

/-- C4: for any Variable v of declared type D and any Expression e whose own
check succeeds and whose static type is a subtype of D, Assignment(v, e)
checks successfully and its static type is D. -/
theorem assignment_well_typed_succeeds (v : JavaVariable) (e : JavaExpression) (t : JavaType)
    (hc : check_types e = .ok ()) (hs : static_type e = .ok t)
    (hsub : t.is_subtype_of v.declared_type = true) :
    check_types (.JavaAssignment v e) = .ok () ∧
      static_type (.JavaAssignment v e) = .ok v.declared_type :=
  ⟨by simp [check_types, hc, hs, hsub, bind, Except.bind], rfl⟩

/-- C5: Assignment.check_types validates the lhs (a variable: a no-op) and the
rhs — a diagnostic raised inside the rhs propagates unchanged — and then
requires the rhs type to be a subtype of the lhs type; on violation it signals
a TypeMismatch whose message names the offending value's type, the variable's
name and the variable's declared type. -/
theorem assignment_check_types_behavior (v : JavaVariable) (e : JavaExpression) :
    (∀ err : JavaError, check_types e = .error err →
        check_types (.JavaAssignment v e) = .error err) ∧
      (∀ t : JavaType, check_types e = .ok () → static_type e = .ok t →
        t.is_subtype_of v.declared_type = false →
        check_types (.JavaAssignment v e) =
          .error (.JavaTypeMismatchError
            (assignMessage t.name v.name v.declared_type.name))) := by
  constructor
  · intro err h
    simp [check_types, h, bind, Except.bind]
  · intro t hc hs hsub
    simp [check_types, hc, hs, hsub, bind, Except.bind]

/-- C6: Assignment.static_type is the declared type of the left-hand-side
variable, never the right-hand side's type, and it does not examine the rhs:
it is well-defined and raises nothing for every rhs, including ill-typed or
unchecked ones, and is invariant under replacing the rhs. -/
theorem assignment_static_type_is_lhs (lhs : JavaVariable) (rhs : JavaExpression) :
    static_type (.JavaAssignment lhs rhs) = .ok lhs.declared_type ∧
      ∀ rhs2 : JavaExpression,
        static_type (.JavaAssignment lhs rhs) = static_type (.JavaAssignment lhs rhs2) :=
  ⟨rfl, fun _ => rfl⟩

/-- C7: MethodCall.static_type returns the return type of the signature found
by looking up method_name on the receiver's static type, propagates the
NoSuchMethod condition when the lookup fails (and lookup failures are always
NoSuchMethod conditions), and triggers no validation: it is invariant under
replacing the argument list. -/
theorem method_call_static_type_lookup
    (receiver : JavaExpression) (method_name : String) (args : List JavaExpression)
    (rt : JavaType) (hst : static_type receiver = .ok rt) :
    (∀ meth : JavaMethod, rt.get_method method_name = .ok meth →
        static_type (.JavaMethodCall receiver method_name args) = .ok meth.return_type) ∧
      (∀ err : JavaError, rt.get_method method_name = .error err →
        static_type (.JavaMethodCall receiver method_name args) = .error err) ∧
      (∀ err : JavaError, rt.get_method method_name = .error err →
        ∃ m : String, err = .NoSuchJavaMethod m) ∧
      (∀ args2 : List JavaExpression,
        static_type (.JavaMethodCall receiver method_name args) =
          static_type (.JavaMethodCall receiver method_name args2)) := by
  refine ⟨?_, ?_, ?_, ?_⟩
  · intro meth hg
    simp [static_type, hst, hg, bind, Except.bind]
  · intro err hg
    simp [static_type, hst, hg, bind, Except.bind]
  · intro err hg
    unfold JavaType.get_method at hg
    cases hfind : rt.methods.find? (fun m => m.name == method_name) with
    | none =>
        rw [hfind] at hg
        injection hg with h
        exact ⟨rt.name ++ " has no method named " ++ method_name, h.symm⟩
    | some m =>
        rw [hfind] at hg
        cases hg
  · intro args2
    simp [static_type]

/-- C8: checking and type-querying mutate nothing: the state-threading
translations of check_types() and static_type() return the expression tree
unchanged (whether they succeed or raise), and agree with the pure
translations. -/
theorem checking_mutates_nothing (e : JavaExpression) :
    (check_types_frame e).2 = e ∧ (static_type_frame e).2 = e ∧
      (check_types_frame e).1 = check_types e ∧ (static_type_frame e).1 = static_type e := by
  rw [check_types_frame_eq e, static_type_frame_eq e]
  exact ⟨rfl, rfl, rfl, rfl⟩

/-- C9: in a MethodCall with matching arity, once the argument at position k
(the first mismatch) is found not to match, the same TypeMismatch diagnostic
is raised for every choice of the later arguments: the arguments after k are
never validated and contribute no diagnostic to the walk. -/
theorem method_call_aborts_at_first_mismatch
    (receiver : JavaExpression) (method_name : String)
    (rt : JavaType) (meth : JavaMethod)
    (petsPre : List JavaType) (pet : JavaType) (petsTail : List JavaType)
    (argsPre : List JavaExpression) (badArg : JavaExpression)
    (ens ans : List String) (t : JavaType)
    (hrecv : check_types receiver = .ok ())
    (hst : static_type receiver = .ok rt)
    (hg : rt.get_method method_name = .ok meth)
    (hp : meth.parameter_types = petsPre ++ pet :: petsTail)
    (hpre : ArgsOk petsPre argsPre ens ans)
    (hbad : check_types badArg = .ok ())
    (ht : static_type badArg = .ok t)
    (hsub : t.is_subtype_of pet = false) :
    ∀ argsTail : List JavaExpression, argsTail.length = petsTail.length →
      check_types (.JavaMethodCall receiver method_name (argsPre ++ badArg :: argsTail)) =
        .error (.JavaTypeMismatchError
          (mismatchMessage rt.name method_name (ens ++ [pet.name]) (ans ++ [t.name]))) := by
  intro argsTail hlenT
  have hlen : meth.parameter_types.length = (argsPre ++ badArg :: argsTail).length := by
    have h1 := hpre.length_eq
    simp only [hp, List.length_append, List.length_cons]
    omega
  rw [check_types_method_call method_name _ hrecv hst hg hlen, hp,
    check_args_append rt.name method_name hpre [] [] (pet :: petsTail) (badArg :: argsTail)]
  simp only [List.nil_append]
  exact check_args_mismatch rt.name method_name ens ans petsTail argsTail hbad ht hsub

/-- C10: in a MethodCall with matching arity, arguments are processed in
declaration order and each argument's own recursive check runs before its
subtype comparison: a diagnostic raised inside the subtree of argument i
propagates as the call's diagnostic — whatever argument i's static type would
have been, and for every choice of the later arguments. -/
theorem method_call_inner_diagnostic_precedes
    (receiver : JavaExpression) (method_name : String)
    (rt : JavaType) (meth : JavaMethod)
    (petsPre : List JavaType) (pet : JavaType) (petsTail : List JavaType)
    (argsPre : List JavaExpression) (badArg : JavaExpression) (err : JavaError)
    (ens ans : List String)
    (hrecv : check_types receiver = .ok ())
    (hst : static_type receiver = .ok rt)
    (hg : rt.get_method method_name = .ok meth)
    (hp : meth.parameter_types = petsPre ++ pet :: petsTail)
    (hpre : ArgsOk petsPre argsPre ens ans)
    (hbad : check_types badArg = .error err) :
    ∀ argsTail : List JavaExpression, argsTail.length = petsTail.length →
      check_types (.JavaMethodCall receiver method_name (argsPre ++ badArg :: argsTail)) =
        .error err := by
  intro argsTail hlenT
  have hlen : meth.parameter_types.length = (argsPre ++ badArg :: argsTail).length := by
    have h1 := hpre.length_eq
    simp only [hp, List.length_append, List.length_cons]
    omega
  rw [check_types_method_call method_name _ hrecv hst hg hlen, hp,
    check_args_append rt.name method_name hpre [] [] (pet :: petsTail) (badArg :: argsTail)]
  exact check_args_error rt.name method_name ([] ++ ens) ([] ++ ans) pet petsTail argsTail hbad

/-- C2 witness: Foo.bar(int, int) called with (1, true) mismatches at the last
position and raises the message built from the accumulated names. -/
theorem method_call_first_mismatch_reports_accumulated_witness :
    check_types (.JavaMethodCall (.JavaVariable ⟨"foo", fooType⟩) "bar"
        [.JavaLiteral "1" intType, .JavaLiteral "true" booleanType]) =
      .error (.JavaTypeMismatchError
        (mismatchMessage "Foo" "bar" ["int", "int"] ["int", "boolean"])) :=
  method_call_first_mismatch_reports_accumulated
    (.JavaVariable ⟨"foo", fooType⟩) "bar" fooType barMethod
    [intType] intType [] [.JavaLiteral "1" intType] (.JavaLiteral "true" booleanType) []
    ["int"] ["int"] booleanType rfl rfl rfl rfl
    (@ArgsOk.cons intType intType (.JavaLiteral "1" intType) [] [] [] []
      rfl rfl (by decide) ArgsOk.nil) rfl rfl rfl (by decide)

/-- C3 witness: Foo.baz(int) called with two arguments — the second of which
is a ConstructorCall whose own check would raise — signals the ArgumentCount
diagnostic. -/
theorem method_call_arity_before_arguments_witness :
    check_types (.JavaMethodCall (.JavaVariable ⟨"foo", fooType⟩) "baz"
        [.JavaLiteral "1" intType, .JavaConstructorCall fooType []]) =
      .error (.JavaArgumentCountError (arityMessage "Foo" "baz" 1 2)) :=
  method_call_arity_before_arguments (.JavaVariable ⟨"foo", fooType⟩) "baz"
    [.JavaLiteral "1" intType, .JavaConstructorCall fooType []] fooType bazMethod
    rfl rfl rfl (by decide)

/-- C4 witness: assigning the int literal 5 to the int variable x checks and
has static type int. -/
theorem assignment_well_typed_succeeds_witness :
    check_types (.JavaAssignment ⟨"x", intType⟩ (.JavaLiteral "5" intType)) = .ok () ∧
      static_type (.JavaAssignment ⟨"x", intType⟩ (.JavaLiteral "5" intType)) = .ok intType :=
  assignment_well_typed_succeeds ⟨"x", intType⟩ (.JavaLiteral "5" intType) intType
    rfl rfl (by decide)

/-- C5 witness: assigning an Object-typed literal to the int variable x raises
the TypeMismatch naming the value's type, the variable and its declared
type. -/
theorem assignment_check_types_behavior_witness :
    check_types (.JavaAssignment ⟨"x", intType⟩ (.JavaLiteral "o" objectType)) =
      .error (.JavaTypeMismatchError (assignMessage "Object" "x" "int")) :=
  (assignment_check_types_behavior ⟨"x", intType⟩ (.JavaLiteral "o" objectType)).2
    objectType rfl rfl (by decide)

/-- C7 witness: the static type of foo.bar() is bar's return type, and the
static type of foo.nope() propagates the NoSuchJavaMethod condition. -/
theorem method_call_static_type_lookup_witness :
    static_type (.JavaMethodCall (.JavaVariable ⟨"foo", fooType⟩) "bar" []) = .ok objectType ∧
      static_type (.JavaMethodCall (.JavaVariable ⟨"foo", fooType⟩) "nope" []) =
        .error (.NoSuchJavaMethod "Foo has no method named nope") :=
  ⟨(method_call_static_type_lookup (.JavaVariable ⟨"foo", fooType⟩) "bar" [] fooType rfl).1
      barMethod rfl,
    (method_call_static_type_lookup (.JavaVariable ⟨"foo", fooType⟩) "nope" [] fooType rfl).2.1
      (.NoSuchJavaMethod "Foo has no method named nope") rfl⟩

/-- C9 witness: Foo.bar(int, int) called with (true, new Foo()) mismatches at
position 0; the diagnostic is the position-0 TypeMismatch even though the
argument after it is a ConstructorCall whose own check would raise. -/
theorem method_call_aborts_at_first_mismatch_witness :
    check_types (.JavaMethodCall (.JavaVariable ⟨"foo", fooType⟩) "bar"
        [.JavaLiteral "true" booleanType, .JavaConstructorCall fooType []]) =
      .error (.JavaTypeMismatchError (mismatchMessage "Foo" "bar" ["int"] ["boolean"])) :=
  method_call_aborts_at_first_mismatch (.JavaVariable ⟨"foo", fooType⟩) "bar"
    fooType barMethod [] intType [intType] [] (.JavaLiteral "true" booleanType)
    [] [] booleanType rfl rfl rfl rfl ArgsOk.nil rfl rfl (by decide)
    [.JavaConstructorCall fooType []] rfl

/-- C10 witness: Foo.baz(int) called with an assignment argument whose own
subtree raises a TypeMismatch; that inner diagnostic is the call's diagnostic,
even though the argument's static type (Object) would also mismatch the int
parameter. -/
theorem method_call_inner_diagnostic_precedes_witness :
    check_types (.JavaMethodCall (.JavaVariable ⟨"foo", fooType⟩) "baz"
        [.JavaAssignment ⟨"s", objectType⟩ (.JavaLiteral "1" intType)]) =
      .error (.JavaTypeMismatchError (assignMessage "int" "s" "Object")) :=
  method_call_inner_diagnostic_precedes (.JavaVariable ⟨"foo", fooType⟩) "baz"
    fooType bazMethod [] intType [] []
    (.JavaAssignment ⟨"s", objectType⟩ (.JavaLiteral "1" intType))
    (.JavaTypeMismatchError (assignMessage "int" "s" "Object"))
    [] [] rfl rfl rfl rfl ArgsOk.nil rfl [] rfl
